import Mathlib

/-!
# Verification of the text-to-video orchestration endpoint

A shallow embedding of `src/api/Index.py`: the single FastAPI handler
`generate_text_to_video`, the `Text2VideoRequest` pydantic model, and the
bounded polling loop over an external create/status HTTP service.

The external service is modelled as an oracle (`Env`): one response for the
create call and a stream of responses for the status calls.  The handler's
observable behaviour is a terminal `Outcome` together with a trace of the
suspensions (`asyncio.sleep`) and status calls it performs, in order.

Python facts used by the embedding:
* `//` on `int` is floor division (`Int.fdiv`);
* `range(n)` is empty for `n ≤ 0` (hence `Int.toNat` on the attempt count);
* `if not video_url` is true exactly when `video_url` is `None` or `""`;
* `fastapi.HTTPException` is an `Exception` subclass, so an `HTTPException`
  raised inside the handler's `try` block is caught by its own trailing
  `except Exception as e` clause and rewrapped as
  `HTTPException(500, f"Internal error: {str(e)}")`, where starlette's
  `HTTPException.__str__` is `f"{self.status_code}: {self.detail}"`;
* `httpx.Response.raise_for_status` raises `httpx.HTTPStatusError` on a
  non-success HTTP status, caught by the first `except` clause and turned
  into `HTTPException(e.response.status_code, f"External API error: {e.response.text}")`.
-/

set_option autoImplicit false

namespace VideoApi

/-- Body of a successful create response: the optional `"taskId"` field
(`create_data`, line 36; `"taskId" not in create_data` is `taskId? = none`). -/
structure CreateOk where
  taskId? : Option String
deriving DecidableEq, Repr

/-- Body of a successful status response (`status_data`, line 52):
`status_data.get("status")` and `status_data.get("videoUrl")`, each `none`
when the field is absent. -/
structure StatusBody where
  status? : Option String
  videoUrl? : Option String
deriving DecidableEq, Repr

/-- Result of one external HTTP call: either a success body (after
`raise_for_status` passes and `.json()` parses), or a non-success HTTP
status, carrying the status code and the response text. -/
inductive HttpResult (α : Type) where
  | ok (body : α)
  | httpError (code : Nat) (text : String)
deriving DecidableEq, Repr

/-- Oracle for the external video service during one request: the response
to the create call, and the response to the `n`-th status call (0-based). -/
structure Env where
  createResp : HttpResult CreateOk
  statusResps : Nat → HttpResult StatusBody

/-- Observable side effects of the handler: a timed suspension
(`await asyncio.sleep(interval)`) or an outbound status call
(`await client.get(status_url)`). -/
inductive Event where
  | sleep (seconds : Nat)
  | statusCall
deriving DecidableEq, Repr

/-- Exceptions that can propagate to the handler's `except` clauses:
`httpx.HTTPStatusError` (from `raise_for_status`) or a
`fastapi.HTTPException` raised inside the `try` block. -/
inductive Exc where
  | httpStatusError (code : Nat) (text : String)
  | httpException (code : Nat) (detail : String)
deriving DecidableEq, Repr

/-- A successful JSON response body of the endpoint: either
`{"status": "completed", "video_url": u}` or
`{"status": "processing", "message": msg}`. -/
inductive Response where
  | completed (videoUrl : String)
  | processing (message : String)
deriving DecidableEq, Repr

/-- What the caller observes: a 200 response body, or an `HTTPException`
with a status code and a detail string. -/
inductive Outcome where
  | resp (r : Response)
  | httpError (statusCode : Nat) (detail : String)
deriving DecidableEq, Repr

/-- The message of the still-processing response (line 62). -/
def stillMsg : String := "Video is still generating. Try again later."

/-- Starlette's `HTTPException.__str__`: `f"{self.status_code}: {self.detail}"`. -/
def strOfHTTPException (code : Nat) (detail : String) : String :=
  s!"{code}: {detail}"

/-- The polling loop (lines 49–59): `i` is the index of the next status
call, the last argument the number of remaining iterations of
`for _ in range(attempts)`.  Each iteration suspends for 2 seconds, issues
one status call, checks `raise_for_status`, and inspects the body:
`status == "completed"` returns the completed body or raises
`HTTPException(500, "Video URL missing")` when `not video_url`; any other
status continues.  Falling off the loop returns the processing body
(lines 61–62). -/
def pollLoop (resps : Nat → HttpResult StatusBody) (i : Nat) :
    Nat → Except Exc Response × List Event
  | 0 => (Except.ok (Response.processing stillMsg), [])
  | n + 1 =>
    match resps i with
    | HttpResult.httpError c t =>
      (Except.error (Exc.httpStatusError c t), [Event.sleep 2, Event.statusCall])
    | HttpResult.ok b =>
      if b.status? = some "completed" then
        match b.videoUrl? with
        | none =>
          (Except.error (Exc.httpException 500 "Video URL missing"),
            [Event.sleep 2, Event.statusCall])
        | some u =>
          if u = "" then
            (Except.error (Exc.httpException 500 "Video URL missing"),
              [Event.sleep 2, Event.statusCall])
          else
            (Except.ok (Response.completed u), [Event.sleep 2, Event.statusCall])
      else
        let rest := pollLoop resps (i + 1) n
        (rest.1, Event.sleep 2 :: Event.statusCall :: rest.2)

/-- The body of the handler's `try` block (lines 32–62): the create call
with `raise_for_status`, the `taskId` check raising
`HTTPException(500, "Failed to create video task")`, the computation
`attempts = max_wait_seconds // interval` with `interval = 2` (Python floor
division; `range` of a non-positive count is empty), and the polling loop. -/
def innerBody (env : Env) (maxWaitSeconds : Int) : Except Exc Response × List Event :=
  match env.createResp with
  | HttpResult.httpError c t => (Except.error (Exc.httpStatusError c t), [])
  | HttpResult.ok createData =>
    match createData.taskId? with
    | none => (Except.error (Exc.httpException 500 "Failed to create video task"), [])
    | some _ => pollLoop env.statusResps 0 (Int.fdiv maxWaitSeconds 2).toNat

/-- The handler's two `except` clauses (lines 64–67):
`httpx.HTTPStatusError` becomes an `HTTPException` with the external status
code and `f"External API error: {e.response.text}"`; every other exception
— including an `HTTPException` raised inside the `try` block — becomes
`HTTPException(500, f"Internal error: {str(e)}")`. -/
def handleExc : Exc → Outcome
  | Exc.httpStatusError c t => Outcome.httpError c ("External API error: " ++ t)
  | Exc.httpException c d =>
    Outcome.httpError 500 ("Internal error: " ++ strOfHTTPException c d)

/-- The whole handler `generate_text_to_video` (lines 25–67) for a request
whose `max_wait_seconds` field is `maxWaitSeconds`, run against the
external-service oracle `env`: the outcome, and the trace of suspensions
and status calls performed. -/
def generate (env : Env) (maxWaitSeconds : Int) : Outcome × List Event :=
  match innerBody env maxWaitSeconds with
  | (Except.ok r, tr) => (Outcome.resp r, tr)
  | (Except.error e, tr) => (handleExc e, tr)

/-- The trace of `k` poll iterations: each status call is immediately
preceded by a 2-second suspension. -/
def pollBlocks : Nat → List Event
  | 0 => []
  | k + 1 => Event.sleep 2 :: Event.statusCall :: pollBlocks k

/-- Number of status calls recorded in a trace. -/
def countStatus : List Event → Nat
  | [] => 0
  | Event.statusCall :: tr => countStatus tr + 1
  | Event.sleep _ :: tr => countStatus tr

/-- The first `j` status calls succeeded at the transport level with a
status other than `"completed"` (so the loop kept going). -/
def pendingBefore (resps : Nat → HttpResult StatusBody) (j : Nat) : Prop :=
  ∀ i, i < j → ∃ b, resps i = HttpResult.ok b ∧ b.status? ≠ some "completed"

/-- The raw JSON body of an incoming request, restricted to the two
declared fields: `prompt` (a string when present) and `max_wait_seconds`
(an integer when present). -/
structure RawRequest where
  prompt? : Option String
  max_wait_seconds? : Option Int
deriving DecidableEq, Repr

/-- The validated request model `Text2VideoRequest` (lines 19–21). -/
structure Text2VideoRequest where
  prompt : String
  max_wait_seconds : Int
deriving DecidableEq, Repr

/-- Pydantic validation of the model (lines 19–21): `prompt` is declared
`Field(...)` (required, no length constraint), `max_wait_seconds` is
declared `Field(default=60)` (no bound constraint).  A body missing
`prompt` is rejected; otherwise the request is admitted with
`max_wait_seconds` defaulting to 60. -/
def parseRequest (r : RawRequest) : Option Text2VideoRequest :=
  match r.prompt? with
  | none => none
  | some p => some { prompt := p, max_wait_seconds := r.max_wait_seconds?.getD 60 }

/-- Test oracle: create succeeds; the first status poll is pending, every
later one is completed with a video URL. -/
def envHappy : Env :=
  { createResp := HttpResult.ok ⟨some "t1"⟩,
    statusResps := fun n =>
      if n = 0 then HttpResult.ok ⟨some "pending", none⟩
      else HttpResult.ok ⟨some "completed", some "https://example/v.mp4"⟩ }

/-- Test oracle: create succeeds; every status poll reports pending. -/
def envPending : Env :=
  { createResp := HttpResult.ok ⟨some "t1"⟩,
    statusResps := fun _ => HttpResult.ok ⟨some "pending", none⟩ }

/-- Test oracle: create succeeds; every status poll reports `"failed"`. -/
def envFailed : Env :=
  { createResp := HttpResult.ok ⟨some "t1"⟩,
    statusResps := fun _ => HttpResult.ok ⟨some "failed", none⟩ }

/-- Test oracle: create succeeds at the transport level but the body has no
`"taskId"` field. -/
def envNoTaskId : Env :=
  { createResp := HttpResult.ok ⟨none⟩,
    statusResps := fun _ => HttpResult.ok ⟨some "pending", none⟩ }

/-- Test oracle: the create call fails with HTTP 503. -/
def envCreate503 : Env :=
  { createResp := HttpResult.httpError 503 "Service Unavailable",
    statusResps := fun _ => HttpResult.ok ⟨some "pending", none⟩ }

/-- Test oracle: create succeeds; the first status call fails with HTTP 502. -/
def envStatus502 : Env :=
  { createResp := HttpResult.ok ⟨some "t1"⟩,
    statusResps := fun _ => HttpResult.httpError 502 "Bad Gateway" }

/-- Test oracle: create succeeds; every status poll reports completed but
omits the video URL. -/
def envNoUrl : Env :=
  { createResp := HttpResult.ok ⟨some "t1"⟩,
    statusResps := fun _ => HttpResult.ok ⟨some "completed", none⟩ }

/-! ## Helper lemmas -/

lemma pollBlocks_append (a b : Nat) :
    pollBlocks (a + b) = pollBlocks a ++ pollBlocks b := by
  induction a with
  | zero => simp [pollBlocks]
  | succ a ih =>
    rw [Nat.add_right_comm]
    simp [pollBlocks, ih]

lemma countStatus_pollBlocks (k : Nat) : countStatus (pollBlocks k) = k := by
  induction k with
  | zero => rfl
  | succ k ih => simp [pollBlocks, countStatus, ih]

/-- A status call whose body is not `"completed"` makes the loop continue
with one more sleep-then-poll block in front of the remaining trace. -/
lemma pollLoop_pending_step (resps : Nat → HttpResult StatusBody) (i n : Nat)
    (b : StatusBody) (hb : resps i = HttpResult.ok b)
    (hnc : b.status? ≠ some "completed") :
    pollLoop resps i (n + 1) =
      ((pollLoop resps (i + 1) n).1,
        Event.sleep 2 :: Event.statusCall :: (pollLoop resps (i + 1) n).2) := by
  simp [pollLoop, hb, hnc]

lemma pollLoop_completed_step (resps : Nat → HttpResult StatusBody) (i n : Nat)
    (u : String) (hs : resps i = HttpResult.ok ⟨some "completed", some u⟩)
    (hu : u ≠ "") :
    pollLoop resps i (n + 1) =
      (Except.ok (Response.completed u), [Event.sleep 2, Event.statusCall]) := by
  simp [pollLoop, hs, hu]

lemma pollLoop_missingUrl_step (resps : Nat → HttpResult StatusBody) (i n : Nat)
    (v : Option String) (hs : resps i = HttpResult.ok ⟨some "completed", v⟩)
    (hv : v = none ∨ v = some "") :
    pollLoop resps i (n + 1) =
      (Except.error (Exc.httpException 500 "Video URL missing"),
        [Event.sleep 2, Event.statusCall]) := by
  rcases hv with rfl | rfl <;> simp [pollLoop, hs]

lemma pollLoop_httpError_step (resps : Nat → HttpResult StatusBody) (i n : Nat)
    (c : Nat) (t : String) (hs : resps i = HttpResult.httpError c t) :
    pollLoop resps i (n + 1) =
      (Except.error (Exc.httpStatusError c t),
        [Event.sleep 2, Event.statusCall]) := by
  simp [pollLoop, hs]

/-- Running the loop past `j` leading non-completed polls: the loop reaches
the `j`-th status call having produced `j` sleep-then-poll blocks. -/
lemma pollLoop_skip (resps : Nat → HttpResult StatusBody) :
    ∀ (j i n : Nat),
      (∀ k, k < j → ∃ b, resps (i + k) = HttpResult.ok b ∧ b.status? ≠ some "completed") →
      j ≤ n →
      pollLoop resps i n =
        ((pollLoop resps (i + j) (n - j)).1,
          pollBlocks j ++ (pollLoop resps (i + j) (n - j)).2) := by
  intro j
  induction j with
  | zero =>
    intro i n _ _
    simp [pollBlocks]
  | succ j ih =>
    intro i n hpend hjn
    obtain ⟨m, rfl⟩ : ∃ m, n = m + 1 := ⟨n - 1, by omega⟩
    obtain ⟨b, hb, hbc⟩ := hpend 0 (Nat.succ_pos j)
    rw [Nat.add_zero] at hb
    have hstep := pollLoop_pending_step resps i m b hb hbc
    have hshift : ∀ k, k < j →
        ∃ b, resps (i + 1 + k) = HttpResult.ok b ∧ b.status? ≠ some "completed" := by
      intro k hk
      have h := hpend (k + 1) (by omega)
      rwa [show i + (k + 1) = i + 1 + k by omega] at h
    have hrest := ih (i + 1) m hshift (by omega)
    have e1 : i + 1 + j = i + (j + 1) := by omega
    have e2 : m - j = m + 1 - (j + 1) := by omega
    rw [hstep, hrest, e1, e2]
    simp [pollBlocks]

/-- The trace of a full loop run is always some number `k ≤ n` of
sleep-then-poll blocks. -/
lemma pollLoop_trace (resps : Nat → HttpResult StatusBody) :
    ∀ (n i : Nat), ∃ k, k ≤ n ∧ (pollLoop resps i n).2 = pollBlocks k := by
  intro n
  induction n with
  | zero => intro i; exact ⟨0, Nat.le_refl 0, rfl⟩
  | succ n ih =>
    intro i
    cases hres : resps i with
    | httpError c t =>
      exact ⟨1, by omega, by rw [pollLoop_httpError_step resps i n c t hres]; rfl⟩
    | ok b =>
      by_cases hc : b.status? = some "completed"
      · obtain ⟨s?, v?⟩ := b
        simp only at hc
        subst hc
        cases hv : v? with
        | none =>
          exact ⟨1, by omega, by rw [pollLoop_missingUrl_step resps i n none (by rw [← hv]; exact hres) (Or.inl rfl)]; rfl⟩
        | some u =>
          by_cases hu : u = ""
          · subst hu
            exact ⟨1, by omega, by rw [pollLoop_missingUrl_step resps i n (some "") (by rw [← hv]; exact hres) (Or.inr rfl)]; rfl⟩
          · exact ⟨1, by omega, by rw [pollLoop_completed_step resps i n u (by rw [← hv]; exact hres) hu]; rfl⟩
      · obtain ⟨k, hk, htr⟩ := ih (i + 1)
        refine ⟨k + 1, by omega, ?_⟩
        rw [pollLoop_pending_step resps i n b hres hc, htr]
        rfl

/-- The trace of the handler equals the trace of its `try` body: the
`except` clauses change the outcome, never the events already performed. -/
lemma generate_snd (env : Env) (w : Int) :
    (generate env w).2 = (innerBody env w).2 := by
  unfold generate
  rcases hib : innerBody env w with ⟨r, tr⟩
  cases r <;> rfl

/-- When the create call succeeds with a task id, the handler is the
polling loop run for `max_wait_seconds // 2` iterations, with exceptions
translated by the `except` clauses. -/
lemma generate_create_ok (env : Env) (w : Int) (tid : String)
    (hc : env.createResp = HttpResult.ok ⟨some tid⟩) :
    innerBody env w = pollLoop env.statusResps 0 (Int.fdiv w 2).toNat := by
  unfold innerBody
  rw [hc]

lemma pollBlocks_snoc (j : Nat) :
    pollBlocks (j + 1) = pollBlocks j ++ [Event.sleep 2, Event.statusCall] :=
  pollBlocks_append j 1

/-- A create response with no `"taskId"` field: the raised 500 is caught by
the handler's own `except Exception` clause and rewrapped. -/
lemma generate_noTaskId (env : Env) (w : Int) (cr : CreateOk)
    (hc : env.createResp = HttpResult.ok cr) (hid : cr.taskId? = none) :
    generate env w =
      (Outcome.httpError 500
        ("Internal error: " ++ strOfHTTPException 500 "Failed to create video task"),
        []) := by
  obtain ⟨tid?⟩ := cr
  replace hid : tid? = none := hid
  subst hid
  have hib : innerBody env w =
      (Except.error (Exc.httpException 500 "Failed to create video task"), []) := by
    unfold innerBody
    rw [hc]
  unfold generate
  rw [hib]
  rfl

/-- A `"completed"` snapshot with a falsy video URL after `j` pending
polls: the raised 500 is caught by the handler's own `except Exception`
clause and rewrapped. -/
lemma generate_missingUrl (env : Env) (w : Int) (tid : String) (j : Nat)
    (v : Option String)
    (hc : env.createResp = HttpResult.ok ⟨some tid⟩)
    (hj : j < (Int.fdiv w 2).toNat)
    (hpend : pendingBefore env.statusResps j)
    (hs : env.statusResps j = HttpResult.ok ⟨some "completed", v⟩)
    (hv : v = none ∨ v = some "") :
    generate env w =
      (Outcome.httpError 500
        ("Internal error: " ++ strOfHTTPException 500 "Video URL missing"),
        pollBlocks (j + 1)) := by
  have hskip := pollLoop_skip env.statusResps j 0 (Int.fdiv w 2).toNat
    (fun k hk => by simpa using hpend k hk) (by omega)
  rw [Nat.zero_add] at hskip
  obtain ⟨m, hm⟩ : ∃ m, (Int.fdiv w 2).toNat - j = m + 1 :=
    ⟨(Int.fdiv w 2).toNat - j - 1, by omega⟩
  rw [hm, pollLoop_missingUrl_step env.statusResps j m v hs hv] at hskip
  unfold generate
  rw [generate_create_ok env w tid hc, hskip, ← pollBlocks_snoc]
  rfl

/-! ## Claim theorems -/

/-- C1: for every request with `max_wait_seconds = w` and the fixed poll
interval of 2, the handler issues at most `⌊w/2⌋` status calls before
returning the still-processing outcome (`(Int.fdiv w 2).toNat`, which is
`⌊w/2⌋` clamped at 0, mirroring `range(max_wait_seconds // 2)`), and the
trace is exactly a sequence of sleep-then-poll blocks: each status call is
immediately preceded by a 2-second suspension, never followed by one. -/
theorem generate_status_calls_bounded (env : Env) (w : Int)
    (hp : (generate env w).1 = Outcome.resp (Response.processing stillMsg)) :
    countStatus (generate env w).2 ≤ (Int.fdiv w 2).toNat ∧
    (generate env w).2 = pollBlocks (countStatus (generate env w).2) := by
  rw [generate_snd]
  rcases hc : env.createResp with ⟨_ | tid⟩ | ⟨c, t⟩
  · have hib : innerBody env w =
        (Except.error (Exc.httpException 500 "Failed to create video task"), []) := by
      unfold innerBody
      rw [hc]
    rw [hib]
    exact ⟨Nat.zero_le _, rfl⟩
  · rw [generate_create_ok env w tid hc]
    obtain ⟨k, hk, htr⟩ := pollLoop_trace env.statusResps (Int.fdiv w 2).toNat 0
    rw [htr, countStatus_pollBlocks]
    exact ⟨hk, rfl⟩
  · have hib : innerBody env w = (Except.error (Exc.httpStatusError c t), []) := by
      unfold innerBody
      rw [hc]
    rw [hib]
    exact ⟨Nat.zero_le _, rfl⟩

/-- Witness for C1 at `envPending`, `w = 5`: both polls report pending. -/
theorem generate_status_calls_bounded_witness :
    (generate envPending 5).1 = Outcome.resp (Response.processing stillMsg) ∧
    countStatus (generate envPending 5).2 ≤ (Int.fdiv 5 2).toNat ∧
    (generate envPending 5).2 = pollBlocks (countStatus (generate envPending 5).2) :=
  ⟨by decide, generate_status_calls_bounded envPending 5 (by decide)⟩

/-- C2: if the `j`-th status call (after `j` earlier non-completed polls)
reports `"completed"` with a non-empty video URL `u`, the handler returns
the completed body carrying `u` immediately: the trace stops at that poll,
with exactly `j + 1` status calls, regardless of remaining attempts. -/
theorem generate_completed_immediate (env : Env) (w : Int) (tid u : String)
    (j : Nat)
    (hc : env.createResp = HttpResult.ok ⟨some tid⟩)
    (hj : j < (Int.fdiv w 2).toNat)
    (hpend : pendingBefore env.statusResps j)
    (hs : env.statusResps j = HttpResult.ok ⟨some "completed", some u⟩)
    (hu : u ≠ "") :
    generate env w = (Outcome.resp (Response.completed u), pollBlocks (j + 1)) ∧
    countStatus (generate env w).2 = j + 1 := by
  have hskip := pollLoop_skip env.statusResps j 0 (Int.fdiv w 2).toNat
    (fun k hk => by simpa using hpend k hk) (by omega)
  rw [Nat.zero_add] at hskip
  obtain ⟨m, hm⟩ : ∃ m, (Int.fdiv w 2).toNat - j = m + 1 :=
    ⟨(Int.fdiv w 2).toNat - j - 1, by omega⟩
  rw [hm, pollLoop_completed_step env.statusResps j m u hs hu] at hskip
  have hgen : generate env w =
      (Outcome.resp (Response.completed u), pollBlocks (j + 1)) := by
    unfold generate
    rw [generate_create_ok env w tid hc, hskip, ← pollBlocks_snoc]
  rw [hgen]
  exact ⟨rfl, countStatus_pollBlocks (j + 1)⟩

/-- Witness for C2 at `envHappy`, `w = 60`, second poll completed: the
handler stops after 2 of the 30 available status calls. -/
theorem generate_completed_immediate_witness :
    generate envHappy 60 =
      (Outcome.resp (Response.completed "https://example/v.mp4"), pollBlocks 2) ∧
    countStatus (generate envHappy 60).2 = 2 :=
  generate_completed_immediate envHappy 60 "t1" "https://example/v.mp4" 1
    rfl (by decide)
    (fun i hi => by
      have h0 : i = 0 := by omega
      subst h0
      exact ⟨⟨some "pending", none⟩, rfl, by decide⟩)
    rfl (by decide)

/-- C3: a create response that lacks a task identifier makes the handler
fail with HTTP 500 and an empty trace: zero status calls are issued. -/
theorem generate_missing_taskId (env : Env) (w : Int) (cr : CreateOk)
    (hc : env.createResp = HttpResult.ok cr) (hid : cr.taskId? = none) :
    generate env w =
      (Outcome.httpError 500
        ("Internal error: " ++ strOfHTTPException 500 "Failed to create video task"),
        []) ∧
    countStatus (generate env w).2 = 0 := by
  have h := generate_noTaskId env w cr hc hid
  rw [h]
  exact ⟨rfl, rfl⟩

/-- Witness for C3 at `envNoTaskId`, `w = 60`. -/
theorem generate_missing_taskId_witness :
    generate envNoTaskId 60 =
      (Outcome.httpError 500
        ("Internal error: " ++ strOfHTTPException 500 "Failed to create video task"),
        []) ∧
    countStatus (generate envNoTaskId 60).2 = 0 :=
  generate_missing_taskId envNoTaskId 60 ⟨none⟩ rfl rfl

/-- C4: a non-success HTTP status from the external service — on the create
call or on any status call — makes the handler fail with exactly the
external status code, with the external body inside the detail string. -/
theorem generate_http_error_propagated :
    (∀ (env : Env) (w : Int) (c : Nat) (t : String),
       env.createResp = HttpResult.httpError c t →
       generate env w = (Outcome.httpError c ("External API error: " ++ t), [])) ∧
    (∀ (env : Env) (w : Int) (tid t : String) (c j : Nat),
       env.createResp = HttpResult.ok ⟨some tid⟩ →
       j < (Int.fdiv w 2).toNat →
       pendingBefore env.statusResps j →
       env.statusResps j = HttpResult.httpError c t →
       (generate env w).1 = Outcome.httpError c ("External API error: " ++ t)) := by
  constructor
  · intro env w c t hc
    unfold generate innerBody
    rw [hc]
    rfl
  · intro env w tid t c j hc hj hpend hs
    have hskip := pollLoop_skip env.statusResps j 0 (Int.fdiv w 2).toNat
      (fun k hk => by simpa using hpend k hk) (by omega)
    rw [Nat.zero_add] at hskip
    obtain ⟨m, hm⟩ : ∃ m, (Int.fdiv w 2).toNat - j = m + 1 :=
    ⟨(Int.fdiv w 2).toNat - j - 1, by omega⟩
    rw [hm, pollLoop_httpError_step env.statusResps j m c t hs] at hskip
    unfold generate
    rw [generate_create_ok env w tid hc, hskip]
    rfl

/-- Witness for C4: HTTP 503 on the create call yields a 503 with the
external body as detail; HTTP 502 on the first status call yields a 502. -/
theorem generate_http_error_propagated_witness :
    generate envCreate503 60 =
      (Outcome.httpError 503 ("External API error: " ++ "Service Unavailable"), []) ∧
    (generate envStatus502 60).1 =
      Outcome.httpError 502 ("External API error: " ++ "Bad Gateway") :=
  ⟨generate_http_error_propagated.1 envCreate503 60 503 "Service Unavailable" rfl,
   generate_http_error_propagated.2 envStatus502 60 "t1" "Bad Gateway" 502 0
     rfl (by decide) (fun i hi => absurd hi (Nat.not_lt_zero i)) rfl⟩

/-- C5: a `"completed"` snapshot whose video URL is missing or empty makes
the handler fail with HTTP 500 — it never returns a completed body. -/
theorem generate_missing_videoUrl (env : Env) (w : Int) (tid : String) (j : Nat)
    (v : Option String)
    (hc : env.createResp = HttpResult.ok ⟨some tid⟩)
    (hj : j < (Int.fdiv w 2).toNat)
    (hpend : pendingBefore env.statusResps j)
    (hs : env.statusResps j = HttpResult.ok ⟨some "completed", v⟩)
    (hv : v = none ∨ v = some "") :
    (generate env w).1 =
      Outcome.httpError 500
        ("Internal error: " ++ strOfHTTPException 500 "Video URL missing") ∧
    ∀ u, (generate env w).1 ≠ Outcome.resp (Response.completed u) := by
  have h := generate_missingUrl env w tid j v hc hj hpend hs hv
  rw [h]
  exact ⟨rfl, fun u hne => Outcome.noConfusion hne⟩

/-- Witness for C5 at `envNoUrl`, `w = 10`: the first poll is completed
without a URL. -/
theorem generate_missing_videoUrl_witness :
    (generate envNoUrl 10).1 =
      Outcome.httpError 500
        ("Internal error: " ++ strOfHTTPException 500 "Video URL missing") ∧
    ∀ u, (generate envNoUrl 10).1 ≠ Outcome.resp (Response.completed u) :=
  generate_missing_videoUrl envNoUrl 10 "t1" 0 none
    rfl (by decide) (fun i hi => absurd hi (Nat.not_lt_zero i)) rfl (Or.inl rfl)

/-- C6: when every one of the `⌊w/2⌋` status calls comes back without a
`"completed"` status, the handler returns the non-error processing body
`{"status": "processing", "message": "Video is still generating. Try again later."}`
after the full trace of sleep-then-poll blocks. -/
theorem generate_still_processing_body (env : Env) (w : Int) (tid : String)
    (hc : env.createResp = HttpResult.ok ⟨some tid⟩)
    (hpend : pendingBefore env.statusResps (Int.fdiv w 2).toNat) :
    generate env w =
      (Outcome.resp
        (Response.processing "Video is still generating. Try again later."),
        pollBlocks (Int.fdiv w 2).toNat) := by
  have hskip := pollLoop_skip env.statusResps (Int.fdiv w 2).toNat 0
    (Int.fdiv w 2).toNat
    (fun k hk => by simpa using hpend k hk) (Nat.le_refl _)
  rw [Nat.zero_add, Nat.sub_self] at hskip
  unfold generate
  rw [generate_create_ok env w tid hc, hskip]
  simp [pollLoop, stillMsg]

/-- Witness for C6 at `envPending`, `w = 4`: both polls report pending. -/
theorem generate_still_processing_body_witness :
    generate envPending 4 =
      (Outcome.resp
        (Response.processing "Video is still generating. Try again later."),
        pollBlocks (Int.fdiv 4 2).toNat) :=
  generate_still_processing_body envPending 4 "t1" rfl
    (fun _ _ => ⟨⟨some "pending", none⟩, rfl, by decide⟩)

/-- C7: a status snapshot whose status is any value other than the exact
string `"completed"` is treated as still pending: the loop never
terminates early on it, continuing to the next iteration with one more
sleep-then-poll block; consequently, when every poll reports such a value
(for example `"failed"`), the loop runs until attempts are exhausted and
returns the processing body. -/
theorem pollLoop_treats_other_status_as_pending :
    (∀ (resps : Nat → HttpResult StatusBody) (i n : Nat) (b : StatusBody),
       resps i = HttpResult.ok b → b.status? ≠ some "completed" →
       pollLoop resps i (n + 1) =
         ((pollLoop resps (i + 1) n).1,
           Event.sleep 2 :: Event.statusCall :: (pollLoop resps (i + 1) n).2)) ∧
    (∀ (resps : Nat → HttpResult StatusBody) (s : String),
       s ≠ "completed" →
       (∀ i, ∃ b, resps i = HttpResult.ok b ∧ b.status? = some s) →
       ∀ (n i : Nat),
         pollLoop resps i n =
           (Except.ok (Response.processing stillMsg), pollBlocks n)) := by
  constructor
  · exact pollLoop_pending_step
  · intro resps s hs hall n
    induction n with
    | zero => intro i; rfl
    | succ n ih =>
      intro i
      obtain ⟨b, hb, hbs⟩ := hall i
      have hnc : b.status? ≠ some "completed" := by
        rw [hbs]
        exact fun h => hs (Option.some.inj h)
      rw [pollLoop_pending_step resps i n b hb hnc, ih (i + 1)]
      rfl

/-- Witness for C7 at `envFailed`: a `"failed"` status continues the loop,
and two `"failed"` polls exhaust a 2-attempt budget. -/
theorem pollLoop_treats_other_status_as_pending_witness :
    pollLoop envFailed.statusResps 0 1 =
      ((pollLoop envFailed.statusResps 1 0).1,
        Event.sleep 2 :: Event.statusCall ::
          (pollLoop envFailed.statusResps 1 0).2) ∧
    pollLoop envFailed.statusResps 0 2 =
      (Except.ok (Response.processing stillMsg), pollBlocks 2) :=
  ⟨pollLoop_treats_other_status_as_pending.1 envFailed.statusResps 0 0
      ⟨some "failed", none⟩ rfl (by decide),
   pollLoop_treats_other_status_as_pending.2 envFailed.statusResps "failed"
      (by decide) (fun _ => ⟨⟨some "failed", none⟩, rfl, rfl⟩) 2 0⟩

/-- C8 counterexample: the request model admits an empty prompt together
with `max_wait_seconds = 0` — the declared fields carry no non-emptiness
or positivity constraint, contradicting the claim that such requests are
not admitted as valid inputs. -/
theorem parseRequest_admits_empty_and_nonpositive :
    parseRequest { prompt? := some "", max_wait_seconds? := some 0 } =
      some { prompt := "", max_wait_seconds := 0 } := rfl

/-- C8 (amended): the request model requires the `prompt` field to be
present and defaults `max_wait_seconds` to 60 when unspecified, but admits
every present prompt (empty included) and every integer
`max_wait_seconds` (zero and negatives included). -/
theorem parseRequest_spec :
    (∀ r : RawRequest, r.prompt? = none → parseRequest r = none) ∧
    (∀ (p : String) (mw : Option Int),
       parseRequest { prompt? := some p, max_wait_seconds? := mw } =
         some { prompt := p, max_wait_seconds := mw.getD 60 }) := by
  constructor
  · intro r hr
    unfold parseRequest
    rw [hr]
  · intro p mw
    rfl

/-- Witness for C8 (amended): a body without `prompt` is rejected; a body
with only `prompt` gets `max_wait_seconds = 60`. -/
theorem parseRequest_spec_witness :
    parseRequest { prompt? := none, max_wait_seconds? := some 5 } = none ∧
    parseRequest { prompt? := some "hi", max_wait_seconds? := none } =
      some { prompt := "hi", max_wait_seconds := 60 } :=
  ⟨parseRequest_spec.1 ⟨none, some 5⟩ rfl, parseRequest_spec.2 "hi" none⟩

/-- C9: the 500s raised inside the `try` block for a missing task id and a
missing video URL are intercepted by the handler's own generic
`except Exception` clause: the caller still sees HTTP 500, but the detail
is the stringified exception rewrapped behind the prefix
`"Internal error: "` — not the bare message. -/
theorem generate_internal_rewrap :
    (∀ (env : Env) (w : Int) (cr : CreateOk),
       env.createResp = HttpResult.ok cr → cr.taskId? = none →
       (generate env w).1 =
         Outcome.httpError 500
           ("Internal error: " ++
             strOfHTTPException 500 "Failed to create video task")) ∧
    (∀ (env : Env) (w : Int) (tid : String) (j : Nat) (v : Option String),
       env.createResp = HttpResult.ok ⟨some tid⟩ →
       j < (Int.fdiv w 2).toNat →
       pendingBefore env.statusResps j →
       env.statusResps j = HttpResult.ok ⟨some "completed", v⟩ →
       (v = none ∨ v = some "") →
       (generate env w).1 =
         Outcome.httpError 500
           ("Internal error: " ++ strOfHTTPException 500 "Video URL missing")) ∧
    "Internal error: " ++ strOfHTTPException 500 "Failed to create video task" ≠
      "Failed to create video task" ∧
    "Internal error: " ++ strOfHTTPException 500 "Video URL missing" ≠
      "Video URL missing" := by
  refine ⟨?_, ?_, by decide, by decide⟩
  · intro env w cr hc hid
    rw [generate_noTaskId env w cr hc hid]
  · intro env w tid j v hc hj hpend hs hv
    rw [generate_missingUrl env w tid j v hc hj hpend hs hv]

/-- Witness for C9 at `envNoTaskId` and `envNoUrl`, `w = 4`. -/
theorem generate_internal_rewrap_witness :
    (generate envNoTaskId 4).1 =
      Outcome.httpError 500
        ("Internal error: " ++
          strOfHTTPException 500 "Failed to create video task") ∧
    (generate envNoUrl 4).1 =
      Outcome.httpError 500
        ("Internal error: " ++ strOfHTTPException 500 "Video URL missing") :=
  ⟨generate_internal_rewrap.1 envNoTaskId 4 ⟨none⟩ rfl rfl,
   generate_internal_rewrap.2.1 envNoUrl 4 "t1" 0 none rfl (by decide)
     (fun i hi => absurd hi (Nat.not_lt_zero i)) rfl (Or.inl rfl)⟩

/-- C10: for `max_wait_seconds < 2` (zero and negatives included) the
computed attempt count `max_wait_seconds // 2` is at most zero, so when the
create call succeeds with a task id the handler performs no suspension and
no status call — the trace is empty — and returns the processing body
immediately. -/
theorem generate_small_budget_no_polls (env : Env) (w : Int) (tid : String)
    (hw : w < 2) (hc : env.createResp = HttpResult.ok ⟨some tid⟩) :
    Int.fdiv w 2 ≤ 0 ∧
    generate env w = (Outcome.resp (Response.processing stillMsg), []) := by
  have hfd : Int.fdiv w 2 ≤ 0 := by
    rw [Int.fdiv_eq_ediv w (by omega : (0 : Int) ≤ 2)]
    omega
  have hz : (Int.fdiv w 2).toNat = 0 := by omega
  refine ⟨hfd, ?_⟩
  unfold generate
  rw [generate_create_ok env w tid hc, hz]
  rfl

/-- Witness for C10 at `envPending`, `w = 1`. -/
theorem generate_small_budget_no_polls_witness :
    (1 : Int) < 2 ∧
    (Int.fdiv 1 2 ≤ 0 ∧
      generate envPending 1 = (Outcome.resp (Response.processing stillMsg), [])) :=
  ⟨by decide, generate_small_budget_no_polls envPending 1 "t1" (by decide) rfl⟩

end VideoApi
